import Mathlib

/-!
# Verification of the PLATZI_STORE_APP specification

A shallow embedding of `products/forms.py` and `products/views.py` of the
PLATZI_STORE_APP repository (a Django front-end over the Platzi Store REST
API), together with theorems settling the frozen claims about its
specification.

Conventions of the embedding:
* Submitted form values are `Option String` (`none` = field absent from the
  request data, as in Django's `QueryDict.get`).
* Upstream HTTP interactions are modelled by passing the upstream's response
  for each call site explicitly (`UpResp`): either a connection failure
  (`requests.exceptions.RequestException`) or a status code together with a
  body that is either decodable JSON of the shape the code reads, or
  malformed (`UpBody.bad`, on which `response.json()` raises
  `json.JSONDecodeError`).
* Python exceptions become explicit outcome constructors (`Except`, or a
  dedicated `crashed` constructor for exceptions no handler catches).
* Django's `URLField` normalisation (`to_python`) and `URLValidator` are
  framework regex code; they are abstracted as parameters
  `urlNorm : String → String` and `urlOk : String → Bool` applied exactly
  where the framework applies them.
-/

set_option autoImplicit false

namespace PlatziStore

/-! ## Python string stripping (`str.strip`, Django `CharField(strip=True)`) -/

/-- Remove leading and trailing whitespace characters from a character list,
as Python's `str.strip()` does (ASCII whitespace; exotic unicode space
characters are not modelled). -/
def stripChars (cs : List Char) : List Char :=
  ((cs.dropWhile Char.isWhitespace).reverse.dropWhile Char.isWhitespace).reverse

/-- Python's `str.strip()` on strings. -/
def pyStrip (s : String) : String :=
  String.mk (stripChars s.toList)

theorem dropWhile_dropWhile {α : Type} (p : α → Bool) (l : List α) :
    (l.dropWhile p).dropWhile p = l.dropWhile p := by
  induction l with
  | nil => rfl
  | cons c r ih =>
    by_cases h : p c
    · simp [List.dropWhile, h, ih]
    · simp [List.dropWhile, h]

theorem head_dropWhile_false {α : Type} (p : α → Bool) (l : List α) :
    (l.dropWhile p) = [] ∨
      ∃ h t, l.dropWhile p = h :: t ∧ p h = false := by
  induction l with
  | nil => exact Or.inl rfl
  | cons c r ih =>
    by_cases h : p c
    · simpa [List.dropWhile, h] using ih
    · exact Or.inr ⟨c, r, by simp [List.dropWhile, h], by simp [h]⟩

theorem getLast?_dropWhile {α : Type} (p : α → Bool) (l : List α)
    (hne : l.dropWhile p ≠ []) :
    (l.dropWhile p).getLast? = l.getLast? := by
  induction l with
  | nil => simp [List.dropWhile] at hne
  | cons c r ih =>
    by_cases h : p c
    · have hr : r.dropWhile p ≠ [] := by
        simpa [List.dropWhile, h] using hne
      have hrne : r ≠ [] := by
        intro hr0
        exact hr (by simp [hr0, List.dropWhile])
      rw [List.dropWhile_cons_of_pos h, ih hr]
      rcases r with _ | ⟨x, xs⟩
      · exact absurd rfl hrne
      · exact List.getLast?_cons_cons.symm
    · rw [List.dropWhile_cons_of_neg h]

theorem stripChars_idem (cs : List Char) :
    stripChars (stripChars cs) = stripChars cs := by
  unfold stripChars
  generalize hA : cs.dropWhile Char.isWhitespace = A
  generalize hB : A.reverse.dropWhile Char.isWhitespace = B
  -- `B.reverse` has no leading whitespace: its head is the last element of
  -- `B`, which (when `B ≠ []`) equals the last of `A.reverse`, i.e. the head
  -- of `A`, which fails the whitespace test.
  have hBrev : B.reverse.dropWhile Char.isWhitespace = B.reverse := by
    rcases head_dropWhile_false Char.isWhitespace cs with hAnil | ⟨h, t, hA2, hph⟩
    · rw [hA] at hAnil
      subst hAnil
      simp at hB
      subst hB
      simp
    · rw [hA] at hA2
      by_cases hBnil : B = []
      · simp [hBnil]
      · have hlast : B.getLast? = A.reverse.getLast? := by
          rw [← hB]
          exact getLast?_dropWhile Char.isWhitespace A.reverse (by rw [hB]; exact hBnil)
        have hlastA : A.reverse.getLast? = some h := by
          rw [List.getLast?_reverse, hA2]
          simp
        have hhead : B.reverse.head? = some h := by
          rw [List.head?_reverse, hlast, hlastA]
        rcases hBr : B.reverse with _ | ⟨x, xs⟩
        · simp
        · have hx : x = h := by
            rw [hBr] at hhead
            simpa using hhead
          rw [List.dropWhile_cons_of_neg (by rw [hx]; simp [hph])]
  rw [hBrev, List.reverse_reverse, ← hB, dropWhile_dropWhile]

theorem pyStrip_idem (s : String) : pyStrip (pyStrip s) = pyStrip s := by
  unfold pyStrip
  rw [show (String.mk (stripChars s.toList)).toList = stripChars s.toList from rfl,
    stripChars_idem]

/-! ## Python `int()` on strings -/

/-- Numeric value of a decimal digit character, `none` otherwise. -/
def digitVal (c : Char) : Option Nat :=
  if c.isDigit then some (c.toNat - 48) else none

/-- Split a character list into its maximal leading run of decimal digits and
the remainder. -/
def takeDigits : List Char → List Nat × List Char
  | [] => ([], [])
  | c :: rest =>
    match digitVal c with
    | some d =>
      let (ds, r) := takeDigits rest
      (d :: ds, r)
    | none => ([], c :: rest)

/-- Value of a digit list read in base 10. -/
def natOfDigits (ds : List Nat) : Nat :=
  ds.foldl (fun a d => a * 10 + d) 0

/-- Python's `int(s)` for a string: optional surrounding whitespace, optional
sign, then decimal digits (digit-group underscores are not modelled).
Returns `none` when `int` would raise `ValueError`. -/
def pyParseInt (s : String) : Option Int :=
  let cs := stripChars s.toList
  let (neg, cs1) :=
    match cs with
    | '+' :: r => (false, r)
    | '-' :: r => (true, r)
    | _ => (false, cs)
  let (ds, rest) := takeDigits cs1
  if ds = [] ∨ rest ≠ [] then none
  else some (if neg then -(natOfDigits ds : Int) else (natOfDigits ds : Int))

/-! ## Python `decimal.Decimal` literals and Django's `DecimalField` checks -/

/-- A parsed Python `Decimal` in `as_tuple()` form: sign, coefficient digit
tuple, exponent. -/
structure Dec where
  neg : Bool
  digits : List Nat
  exp : Int
  deriving Repr, DecidableEq

/-- Coefficient digits as Python `Decimal` stores them: leading zeros
dropped, a lone `0` kept for a zero coefficient. -/
def normCoeff (ds : List Nat) : List Nat :=
  let t := ds.dropWhile (· = 0)
  if t = [] then [0] else t

/-- Parse the exponent suffix (`e`/`E`, optional sign, digits) of a decimal
literal; the whole remainder must be consumed. -/
def parseExpSuffix (cs : List Char) : Option Int :=
  match cs with
  | [] => some 0
  | c :: r =>
    if c = 'e' ∨ c = 'E' then
      let (eneg, r1) :=
        match r with
        | '+' :: q => (false, q)
        | '-' :: q => (true, q)
        | _ => (false, r)
      let (eds, r2) := takeDigits r1
      if eds = [] ∨ r2 ≠ [] then none
      else some (if eneg then -(natOfDigits eds : Int) else (natOfDigits eds : Int))
    else none

/-- Python's `Decimal(s)` on an already-stripped plain numeric literal:
optional sign, digits with an optional decimal point, optional exponent.
Special values (`NaN`, `Infinity`) and digit-group underscores are not
modelled; Django's `DecimalField.validate` rejects the special values
anyway, so the validity verdict is unaffected. -/
def parseDec (s : String) : Option Dec :=
  let cs := s.toList
  let (neg, cs1) :=
    match cs with
    | '+' :: r => (false, r)
    | '-' :: r => (true, r)
    | _ => (false, cs)
  let (ip, cs2) := takeDigits cs1
  let (fp, cs3) :=
    match cs2 with
    | '.' :: r => takeDigits r
    | _ => ([], cs2)
  if ip = [] ∧ fp = [] then none
  else
    match parseExpSuffix cs3 with
    | none => none
    | some e => some ⟨neg, normCoeff (ip ++ fp), e - fp.length⟩

/-- Digit and decimal-place counts of a `Decimal`, exactly as Django's
`DecimalValidator.__call__` computes them from `as_tuple()`. -/
def decCounts (d : Dec) : Nat × Nat :=
  if 0 ≤ d.exp then
    (d.digits.length + (if d.digits = [0] then 0 else d.exp.toNat), 0)
  else
    let ae := (-d.exp).toNat
    if d.digits.length < ae then (ae, ae) else (d.digits.length, ae)

/-- Django's `DecimalValidator(max_digits=10, decimal_places=2)` verdict:
at most 10 digits, at most 2 decimal places, at most 8 whole digits. -/
def decValidatorOk (d : Dec) : Bool :=
  let (digits, decimals) := decCounts d
  digits ≤ 10 && decimals ≤ 2 && digits - decimals ≤ 8

/-- Numeric value of a parsed `Decimal`, as a rational. -/
def decVal (d : Dec) : ℚ :=
  (if d.neg then -1 else 1) * (natOfDigits d.digits : ℚ) * (10 : ℚ) ^ d.exp

/-! ## Data model: categories, category choices, submitted form data -/

/-- A category object as returned by `GET /categories`: the code reads
`cat["id"]` and `cat["name"]`. -/
structure Category where
  id : Int
  name : String
  deriving Repr, DecidableEq

/-- The choice list of a `ChoiceField`: pairs of key and label, where the key
is either the empty-string sentinel (`none`) or an integer category id. -/
def Choices : Type := List (Option Int × String)

instance : DecidableEq Choices := by
  unfold Choices
  infer_instance

/-- Raw submitted values of `ProductForm`'s seven fields (`none` = the key is
absent from the request data). -/
structure FormData where
  title : Option String
  price : Option String
  description : Option String
  categoryId : Option String
  image_url_1 : Option String
  image_url_2 : Option String
  image_url_3 : Option String
  deriving Repr, DecidableEq

/-! ## ProductForm field cleaning

Each function mirrors Django's `Field.clean` (`to_python`, `validate`,
`run_validators`) for the declared field, followed by the form's
`clean_<field>` hook from `forms.py`.  The error string is the first message
Django would record for the field; validity only depends on whether any
error is recorded. -/

/-- Field `title = forms.CharField(max_length=200)` followed by `clean_title`:
`CharField` strips (`strip=True` is the default), an empty result fails the
required check, a result longer than 200 fails `MaxLengthValidator`, and
`clean_title` strips again and rejects an empty string. -/
def cleanTitle (v : Option String) : Except String String :=
  let t := pyStrip (v.getD "")
  if t = "" then .error "This field is required."
  else if 200 < t.length then .error "Ensure this value has at most 200 characters."
  else
    let t2 := pyStrip t
    if t2 = "" then .error "El título del producto es requerido"
    else .ok t2

/-- Field `description = forms.CharField()` (no max length) followed by
`clean_description`. -/
def cleanDescription (v : Option String) : Except String String :=
  let t := pyStrip (v.getD "")
  if t = "" then .error "This field is required."
  else
    let t2 := pyStrip t
    if t2 = "" then .error "La descripción del producto es requerida"
    else .ok t2

/-- The `min_value=0.01` bound of the price field. -/
def minPrice : ℚ := 1 / 100

/-- Field `price = forms.DecimalField(max_digits=10, decimal_places=2,
min_value=0.01)` followed by `clean_price`: `to_python` maps the empty
string to `None` (required error), otherwise strips and parses a `Decimal`;
`run_validators` applies `DecimalValidator(10, 2)` and
`MinValueValidator(0.01)`; `clean_price` additionally rejects values ≤ 0
(unreachable past the min-value validator, but kept from the source). -/
def cleanPrice (v : Option String) : Except String Dec :=
  match v with
  | none => .error "This field is required."
  | some s =>
    if s = "" then .error "This field is required."
    else
      match parseDec (pyStrip s) with
      | none => .error "Enter a number."
      | some d =>
        if decValidatorOk d = false then
          .error "Ensure that there are no more than 10 digits in total."
        else if decVal d < minPrice then
          .error "Ensure this value is greater than or equal to 0.01."
        else if decVal d ≤ 0 then .error "El precio debe ser mayor a 0"
        else .ok d

/-- Field `categoryId = forms.ChoiceField(choices=<loaded>)` followed by
`clean_categoryId`: `to_python` maps the empty value to the empty string and otherwise keeps the
string; a `validate` step raises the required error on the empty string and the invalid-choice
error unless the string equals `str(k)` for some choice key `k`;
`clean_categoryId` rejects a falsy value and converts with `int(...)`. -/
def cleanCategoryId (choices : Choices) (v : Option String) : Except String Int :=
  let s := v.getD ""
  if s = "" then .error "This field is required."
  else if (choices.any fun kv =>
      match kv.1 with
      | some k => s == toString k
      | none => s == "") = false then
    .error "Select a valid choice."
  else
    match pyParseInt s with
    | some n => .ok n
    | none => .error "Categoría inválida"

/-- A `forms.URLField`: `CharField.to_python` strips, `URLField.to_python`
applies the framework's scheme/domain normalisation (abstracted as
`urlNorm`) to a non-empty value, an empty value fails the required check
when `req` is true, and `URLValidator` (abstracted as `urlOk`) runs on a
non-empty value. -/
def cleanUrl (urlNorm : String → String) (urlOk : String → Bool) (req : Bool)
    (v : Option String) : Except String String :=
  let s := pyStrip (v.getD "")
  let u := if s = "" then "" else urlNorm s
  if u = "" then
    if req then .error "This field is required." else .ok ""
  else if urlOk u then .ok u
  else .error "Enter a valid URL."

/-- Errors the form records for one field: empty when the field cleaned
successfully. -/
def errsOf {α : Type} (name : String) (r : Except String α) : List (String × String) :=
  match r with
  | .ok _ => []
  | .error e => [(name, e)]

/-- The `ProductForm.full_clean` error dictionary, one entry per failing field
(the whole-form `clean` adds nothing, as in the source). -/
def formErrors (urlNorm : String → String) (urlOk : String → Bool)
    (choices : Choices) (data : FormData) : List (String × String) :=
  errsOf "title" (cleanTitle data.title) ++
  errsOf "price" (cleanPrice data.price) ++
  errsOf "description" (cleanDescription data.description) ++
  errsOf "categoryId" (cleanCategoryId choices data.categoryId) ++
  errsOf "image_url_1" (cleanUrl urlNorm urlOk true data.image_url_1) ++
  errsOf "image_url_2" (cleanUrl urlNorm urlOk false data.image_url_2) ++
  errsOf "image_url_3" (cleanUrl urlNorm urlOk false data.image_url_3)

/-- Method `ProductForm.is_valid()` for a bound form: no field recorded an error. -/
def isValid (urlNorm : String → String) (urlOk : String → Bool)
    (choices : Choices) (data : FormData) : Bool :=
  formErrors urlNorm urlOk choices data |>.isEmpty

/-- The payload `get_product_data` builds for `POST /products/`.  `price`
carries the numeric value of `float(self.cleaned_data["price"])` (IEEE
rounding is not modelled; the rational value is used). -/
structure Payload where
  title : String
  price : ℚ
  description : String
  categoryId : Int
  images : List String
  deriving Repr, DecidableEq

/-- Method `ProductForm.get_product_data`: `None` unless `is_valid()`; otherwise the
payload assembled from `cleaned_data`, with the image list collecting the
cleaned `image_url_1..3` values that are non-empty, in order. -/
def getProductData (urlNorm : String → String) (urlOk : String → Bool)
    (choices : Choices) (data : FormData) : Option Payload :=
  match cleanTitle data.title, cleanPrice data.price,
      cleanDescription data.description, cleanCategoryId choices data.categoryId,
      cleanUrl urlNorm urlOk true data.image_url_1,
      cleanUrl urlNorm urlOk false data.image_url_2,
      cleanUrl urlNorm urlOk false data.image_url_3 with
  | .ok t, .ok pr, .ok d, .ok c, .ok u1, .ok u2, .ok u3 =>
    some
      { title := t
        price := decVal pr
        description := d
        categoryId := c
        images :=
          (if u1 = "" then [] else [u1]) ++
          (if u2 = "" then [] else [u2]) ++
          (if u3 = "" then [] else [u3]) }
  | _, _, _, _, _, _, _ => none

/-! ## Category loading (`load_categories` of both forms) -/

/-- A decodable-or-malformed JSON body of type `α`. -/
inductive UpBody (α : Type) where
  | ok (val : α)
  | bad
  deriving Repr, DecidableEq

/-- The upstream's behaviour at one call site: a connection-level failure
(`requests.exceptions.RequestException`) or an HTTP response with a status
code and a body. -/
inductive UpResp (α : Type) where
  | conn
  | http (status : Nat) (body : UpBody α)
  deriving Repr, DecidableEq

/-- Method `ProductForm.load_categories`: on status 200 the sentinel
"Selecciona una categoría" followed by the fetched `(id, name)` pairs; on
any other status a single load-error sentinel; on a connection failure a
single connectivity-error sentinel.  A malformed 200 body makes
`response.json()` raise outside the `except` clause, so construction fails
(`Except.error`). -/
def productFormLoadCategories (resp : UpResp (List Category)) : Except Unit Choices :=
  match resp with
  | .conn => .ok [(none, "Error de conexión - Recarga la página")]
  | .http status body =>
    if status = 200 then
      match body with
      | .ok cats => .ok ((none, "Selecciona una categoría") :: cats.map fun c => (some c.id, c.name))
      | .bad => .error ()
    else .ok [(none, "Error al cargar categorías")]

/-- Method `ProductSearchForm.load_categories`: on status 200 the sentinel
"Todas las categorías" followed by the fetched pairs; on any other status
the field's declared `choices=[]` is left untouched (the source has no
`else` branch); on a connection failure a single sentinel labelled
"Error al cargar categorías". -/
def searchFormLoadCategories (resp : UpResp (List Category)) : Except Unit Choices :=
  match resp with
  | .conn => .ok [(none, "Error al cargar categorías")]
  | .http status body =>
    if status = 200 then
      match body with
      | .ok cats => .ok ((none, "Todas las categorías") :: cats.map fun c => (some c.id, c.name))
      | .bad => .error ()
    else .ok []

/-! ## Upstream HTTP calls issued by the views -/

/-- One HTTP request the program issues: method, path under the fixed base
URL, and the `timeout=` keyword argument when one is passed. -/
structure ApiCall where
  method : String
  path : String
  timeout : Option Nat
  deriving Repr, DecidableEq

/-- Path of the product collection endpoint. -/
def productsPath : String := "/products"

/-- Path of the category collection endpoint. -/
def categoriesPath : String := "/categories"

/-- Path of a single product endpoint. -/
def productPath (pid : Nat) : String := "/products/" ++ toString pid

/-- The categories request both forms and the views issue
(`requests.get(".../categories", timeout=10)`). -/
def categoriesCall : ApiCall := ⟨"GET", categoriesPath, some 10⟩

/-! ## List action (`products_menu_views`) -/

/-- A product object from the list endpoint; the list view only stores and
slices these, so the payload is opaque apart from an identifier. -/
structure Product where
  pid : Nat
  deriving Repr, DecidableEq

/-- Query parameters of the list request (`page`, `search`, `category`),
`none` when absent. -/
structure ListRequest where
  page : Option String
  search : String
  category : String
  deriving Repr, DecidableEq

/-- Django `Paginator.num_pages` for `Paginator(products, 12)` with the default
`orphans=0`, `allow_empty_first_page=True`: `ceil(max(1, count) / 12)`. -/
def numPages (count : Nat) : Nat :=
  (max 1 count + 11) / 12

/-- Django `Paginator.get_page(number)` for a `number` taken from
`request.GET.get("page", 1)`: a missing parameter is the integer 1; a string
is fed to `int(...)`; a non-integer gives page 1 (`PageNotAnInteger`); an
integer below 1 or above `num_pages` gives the last page (`EmptyPage`). -/
def clampedPage (page : Option String) (np : Nat) : Nat :=
  match page with
  | none => 1
  | some s =>
    match pyParseInt s with
    | none => 1
    | some n => if n < 1 then np else if (np : Int) < n then np else n.toNat

/-- The data `products_menu_views` renders on the success path. -/
structure ListSuccess where
  pageNumber : Nat
  pageProducts : List Product
  categories : List Category
  totalProducts : Nat
  totalCategories : Nat
  totalPages : Nat
  deriving Repr, DecidableEq

/-- The degraded context both error branches of `products_menu_views` render:
empty product and category lists, zeroed stats, and a surfaced
`messages.error`. -/
structure ErrCtx where
  products : List Product
  categories : List Category
  totalProducts : Nat
  totalCategories : Nat
  messageSurfaced : Bool
  deriving Repr, DecidableEq

/-- Outcome of the list action: the success render, the
`RequestException` error render (`api_status: error`, connection message),
or the `json.JSONDecodeError` error render. -/
inductive ListOutcome where
  | success (s : ListSuccess)
  | connErrorView (c : ErrCtx)
  | dataErrorView (c : ErrCtx)
  deriving Repr, DecidableEq

/-- View `products_menu_views`: fetch products (`raise_for_status` turns any
status ≥ 400 into a `RequestException`), decode them, fetch categories
(decoded only on status 200, any other status degrading to `[]`), then
paginate with page size 12.  A connection failure of either `requests.get`
lands in the `RequestException` handler; a malformed body of either decoded
response lands in the `json.JSONDecodeError` handler. -/
def listView (req : ListRequest) (prodResp : UpResp (List Product))
    (catResp : UpResp (List Category)) : ListOutcome :=
  match prodResp with
  | .conn => .connErrorView ⟨[], [], 0, 0, true⟩
  | .http status body =>
    if 400 ≤ status then .connErrorView ⟨[], [], 0, 0, true⟩
    else
      match body with
      | .bad => .dataErrorView ⟨[], [], 0, 0, true⟩
      | .ok products =>
        match catResp with
        | .conn => .connErrorView ⟨[], [], 0, 0, true⟩
        | .http cstatus cbody =>
          let cats? : Option (List Category) :=
            if cstatus = 200 then
              match cbody with
              | .ok cs => some cs
              | .bad => none
            else some []
          match cats? with
          | none => .dataErrorView ⟨[], [], 0, 0, true⟩
          | some cats =>
            let np := numPages products.length
            let pn := clampedPage req.page np
            .success
              { pageNumber := pn
                pageProducts := (products.drop ((pn - 1) * 12)).take 12
                categories := cats
                totalProducts := products.length
                totalCategories := cats.length
                totalPages := np }

/-- The HTTP requests the list action issues: the products request always,
the categories request only once the products response was received with a
non-error status and decoded. -/
def listViewCalls (prodResp : UpResp (List Product)) : List ApiCall :=
  ⟨"GET", productsPath, some 10⟩ ::
    match prodResp with
    | .conn => []
    | .http status body =>
      if 400 ≤ status then []
      else
        match body with
        | .bad => []
        | .ok _ => [categoriesCall]

/-! ## Detail action (`get_product_detail`) -/

/-- A single product object as the detail/update/delete code reads it:
`product["title"]`, `product["price"]`, `product["description"]`,
`product.get("categoryId", None)`, `product["images"]`. -/
structure ProductJson where
  title : String
  price : Int
  description : String
  categoryId : Option Int
  images : List String
  deriving Repr, DecidableEq

/-- Outcome of `get_product_detail`: a rendered product, the error render
with a `None` product and a surfaced message, or an uncaught exception. -/
inductive DetailOutcome where
  | render (p : ProductJson)
  | renderNone
  | raised
  deriving Repr, DecidableEq

/-- View `get_product_detail`: status 200 renders the product, any other status
or a connection failure renders with a `None` product and an error
message.  A malformed 200 body makes `response.json()` raise outside the
`except requests.exceptions.RequestException` clause. -/
def detailView (resp : UpResp ProductJson) : DetailOutcome :=
  match resp with
  | .conn => .renderNone
  | .http status body =>
    if status = 200 then
      match body with
      | .ok p => .render p
      | .bad => .raised
    else .renderNone

/-- The single HTTP request the detail action issues. -/
def detailCalls (pid : Nat) : List ApiCall :=
  [⟨"GET", productPath pid, some 10⟩]

/-! ## Add action (`add_product`), POST branch -/

/-- A JSON object body as the add/delete code reads it:
`created_product.get("title", "")` on success,
`error_data.get("message", ...)` on rejection. -/
structure RespObj where
  titleField : Option String
  messageField : Option String
  deriving Repr, DecidableEq

/-- The `POST /products/` request of the add action. -/
def postProductsCall : ApiCall := ⟨"POST", "/products/", some 10⟩

/-- Inputs of one POST to `add_product`: the submitted data, the upstream's
responses to the view's own categories fetch and to the product POST, the
choice set the bound form's `load_categories` produced, and the abstracted
URL normaliser/validator. -/
structure AddInput where
  urlNorm : String → String
  urlOk : String → Bool
  choices : Choices
  data : FormData
  viewCats : UpResp (List Category)
  postResp : UpResp RespObj

/-- What one POST to `add_product` produces: the upstream requests issued,
the user-visible messages, whether the rendered form was replaced by a
fresh empty `ProductForm()`, and whether the view raised an uncaught
exception instead of rendering. -/
structure AddResult where
  calls : List ApiCall
  msgs : List String
  formReset : Bool
  raised : Bool

/-- The success message `add_product` emits on status 201. -/
def addSuccessMsg (title : String) : String :=
  "¡Producto \"" ++ title ++ "\" agregado exitosamente!"

/-- The form-processing part of the `add_product` POST branch, reached once
the view-level categories fetch completed without raising (`warn` holds the
warning that fetch may have emitted): bind `ProductForm(request.POST)`
(whose constructor fetches categories again) and submit `POST /products/`
only when the form validates.  Status 201 with a decodable body yields the
success message and a fresh empty form (whose constructor fetches
categories once more); a malformed 201 body raises `json.JSONDecodeError`
into the generic `except Exception` handler; any other status yields the
server-error message, read from the body's `message` field when it
decodes. -/
def addPostForm (inp : AddInput) (warn : List String) : AddResult :=
  let base : List ApiCall := [categoriesCall, categoriesCall]
  if isValid inp.urlNorm inp.urlOk inp.choices inp.data then
    match inp.postResp with
    | .conn =>
      ⟨base ++ [postProductsCall], warn ++ ["Error de conexión con la API"],
        false, false⟩
    | .http status body =>
      if status = 201 then
        match body with
        | .ok o =>
          ⟨base ++ [postProductsCall, categoriesCall],
            warn ++ [addSuccessMsg (o.titleField.getD "")], true, false⟩
        | .bad =>
          ⟨base ++ [postProductsCall], warn ++ ["Error inesperado"], false, false⟩
      else
        let detail :=
          match body with
          | .ok o => o.messageField.getD ("Error del servidor: " ++ toString status)
          | .bad => "Error del servidor: " ++ toString status
        ⟨base ++ [postProductsCall],
          warn ++ ["No se pudo crear el producto: " ++ detail], false, false⟩
  else
    ⟨base, warn ++ ["Por favor corrige los errores en el formulario"], false, false⟩

/-- View `add_product` on POST: the view first fetches categories.  When
that fetch answers 200 with a malformed body, `categories_response.json()`
raises `json.JSONDecodeError`, which the surrounding
`except requests.exceptions.RequestException` clause does not catch — the
view crashes after that single request, before the form is ever bound.  A
connection failure is caught and degrades to a warning, and any other
response leaves the categories list empty; the POST branch then proceeds as
`addPostForm`. -/
def addPost (inp : AddInput) : AddResult :=
  match inp.viewCats with
  | .http status .bad =>
    if status = 200 then ⟨[categoriesCall], [], false, true⟩
    else addPostForm inp []
  | .http _ (.ok _) => addPostForm inp []
  | .conn =>
    addPostForm inp
      ["No se pudieron cargar las categorías. Intenta recargar la página."]

theorem addPost_eq_form (inp : AddInput) (h : inp.viewCats ≠ .http 200 .bad) :
    ∃ warn, addPost inp = addPostForm inp warn := by
  cases hv : inp.viewCats with
  | conn =>
    exact ⟨["No se pudieron cargar las categorías. Intenta recargar la página."],
      by simp [addPost, hv]⟩
  | http st body =>
    cases body with
    | ok cats => exact ⟨[], by simp [addPost, hv]⟩
    | bad =>
      have hst : st ≠ 200 := by
        intro h200
        exact h (by rw [hv, h200])
      exact ⟨[], by simp [addPost, hv, hst]⟩

/-! ## Update action (`update_product`) -/

/-- A value placed into a Django form's `initial` dictionary. -/
inductive PyVal where
  | vstr (s : String)
  | vint (n : Int)
  | vnone
  deriving Repr, DecidableEq

/-- The names of `ProductForm`'s declared fields; `initial` entries under
any other key never reach a rendered widget. -/
def formFieldNames : List String :=
  ["title", "price", "description", "categoryId", "image_url_1", "image_url_2",
    "image_url_3"]

/-- The entries of an `initial` dictionary that actually prefill a
`ProductForm` widget: those whose key names a declared field. -/
def effectiveInitial (init : List (String × PyVal)) : List (String × PyVal) :=
  init.filter fun kv => formFieldNames.contains kv.1

/-- The `initial` dictionary `update_product` builds from the fetched
product, with the keys exactly as in the source: "category" and
"image_url", which are not `ProductForm` field names. -/
def updateInitial (p : ProductJson) : List (String × PyVal) :=
  [("title", .vstr p.title),
    ("price", .vint p.price),
    ("description", .vstr p.description),
    ("category", match p.categoryId with | some k => .vint k | none => .vnone),
    ("image_url", .vstr (p.images.headD ""))]

/-- Outcome of `update_product` on GET: the rendered prefill form with the
loaded categories, a redirect to the list view after an error message, or
an uncaught exception from decoding. -/
inductive UpdGetOutcome where
  | renderForm (init : List (String × PyVal)) (cats : List Category)
  | redirectList
  | raised
  deriving Repr, DecidableEq

/-- View `update_product` on GET: fetch the product; on status 200 also fetch
categories (any non-200 status degrading to `[]`) and render the form with
the `initial` dictionary; on any other status or a connection failure of
either request, emit an error message and redirect to the list.  Malformed
bodies raise outside the `except` clause. -/
def updateGet (productResp : UpResp ProductJson)
    (catsResp : UpResp (List Category)) : UpdGetOutcome :=
  match productResp with
  | .conn => .redirectList
  | .http status body =>
    if status = 200 then
      match body with
      | .bad => .raised
      | .ok p =>
        match catsResp with
        | .conn => .redirectList
        | .http cstatus cbody =>
          if cstatus = 200 then
            match cbody with
            | .ok cats => .renderForm (updateInitial p) cats
            | .bad => .raised
          else .renderForm (updateInitial p) []
    else .redirectList

/-- The HTTP requests the update GET path issues. -/
def updateGetCalls (pid : Nat) (productResp : UpResp ProductJson) : List ApiCall :=
  ⟨"GET", productPath pid, some 10⟩ ::
    match productResp with
    | .conn => []
    | .http status body =>
      if status = 200 then
        match body with
        | .ok _ => [categoriesCall]
        | .bad => []
      else []

/-- Raw POST fields the update POST path reads
(`request.POST.get("title")`, …, `get("category", None)`,
`get("image_url")`). -/
structure UpdPostData where
  title : Option String
  price : Option String
  description : Option String
  category : Option String
  image_url : Option String
  deriving Repr, DecidableEq

/-- The JSON payload `update_product` PUTs: every field is the raw submitted
string (or absent), and `images` is a one-element list only when
`image_url` is present and non-empty. -/
structure UpdatePayload where
  title : Option String
  price : Option String
  description : Option String
  categoryId : Option String
  images : List String
  deriving Repr, DecidableEq

/-- The payload construction of the update POST path. -/
def updatePayload (f : UpdPostData) : UpdatePayload :=
  { title := f.title
    price := f.price
    description := f.description
    categoryId := f.category
    images :=
      match f.image_url with
      | some s => if s = "" then [] else [s]
      | none => [] }

/-- What one POST to `update_product` produces. -/
structure UpdPostResult where
  payload : UpdatePayload
  calls : List ApiCall
  msgs : List String
  redirected : Bool

/-- View `update_product` on POST: build the payload from the raw fields with no
form validation, PUT it, emit a success or error message by status (a
connection failure is caught), and redirect to the list unconditionally. -/
def updatePost (pid : Nat) (f : UpdPostData) (putResp : UpResp Unit) : UpdPostResult :=
  let pl := updatePayload f
  let putCall : ApiCall := ⟨"PUT", productPath pid, some 10⟩
  match putResp with
  | .conn => ⟨pl, [putCall], ["Error de conexión con la API"], true⟩
  | .http status _ =>
    if status = 200 then ⟨pl, [putCall], ["Producto actualizado exitosamente!"], true⟩
    else ⟨pl, [putCall], ["Error al actualizar el producto."], true⟩

/-! ## Delete action (`delete_product`) -/

/-- Inputs of `delete_product`: the upstream's responses to the initial
product fetch, to the existence re-check the POST branch performs when the
initial fetch produced no product, and to the DELETE request.  The two
product fetches read the JSON body (`title` via `get`), the DELETE error
branch reads a `message` field. -/
structure DelInput where
  pid : Nat
  initialGet : UpResp ProductJson
  recheckGet : UpResp ProductJson
  delResp : UpResp RespObj

/-- Outcome of `delete_product`: a redirect to the list view carrying the
emitted messages, the rendered confirmation page (GET only), or an uncaught
exception. -/
inductive DelOutcome where
  | redirect (msgs : List String)
  | renderConfirm (p : Option ProductJson)
  | crashed
  deriving Repr, DecidableEq

/-- The success message `delete_product` emits on status 200/204. -/
def delSuccessMsg (title : String) : String :=
  "Producto \"" ++ title ++ "\" eliminado exitosamente!"

/-- The `product_data` value after `delete_product`'s initial fetch:
`none` when the fetch crashes the view (malformed 200 body, decoded outside
any matching `except`), otherwise the optional product (a connection
failure is swallowed by `except ... pass`, any non-200 status leaves it
`None`). -/
def delProductData (r : UpResp ProductJson) : Option (Option ProductJson) :=
  match r with
  | .conn => some none
  | .http status body =>
    if status = 200 then
      match body with
      | .ok p => some (some p)
      | .bad => none
    else some none

/-- View `delete_product` on POST: when the initial fetch produced no product,
re-check existence (a 404 redirects with an error; the fetched body is
dropped otherwise); then DELETE.  Status 200/204 formats the success
message from `product_data` — which is still `None` on the re-checked path,
so `product_data.get("title", "")` raises `AttributeError` through the
`except requests.exceptions.RequestException` clause.  Any other status
redirects with an error message read from the body when it decodes; a
connection failure of either request redirects with a connection
message. -/
def deletePost (inp : DelInput) : DelOutcome :=
  match delProductData inp.initialGet with
  | none => .crashed
  | some pd =>
    let early : Option (List String) :=
      match pd with
      | some _ => none
      | none =>
        match inp.recheckGet with
        | .conn => some ["Error de conexión con la API"]
        | .http status _ =>
          if status = 404 then some ["El producto no existe."] else none
    match early with
    | some msgs => .redirect msgs
    | none =>
      match inp.delResp with
      | .conn => .redirect ["Error de conexión con la API"]
      | .http status body =>
        if status = 200 ∨ status = 204 then
          match pd with
          | some p => .redirect [delSuccessMsg p.title]
          | none => .crashed
        else
          let detail :=
            match body with
            | .ok o => o.messageField.getD "Error al eliminar el producto."
            | .bad => "Error al eliminar el producto."
          .redirect ["No se pudo eliminar el producto: " ++ detail]

/-- View `delete_product` on GET: the initial fetch, then the confirmation page
with whatever product data it produced. -/
def deleteGet (inp : DelInput) : DelOutcome :=
  match delProductData inp.initialGet with
  | none => .crashed
  | some pd => .renderConfirm pd

/-- The HTTP requests the delete GET path issues: the initial product fetch
is a bare `requests.get(...)` with no `timeout=` argument. -/
def deleteGetCalls (pid : Nat) : List ApiCall :=
  [⟨"GET", productPath pid, none⟩]

/-- The HTTP requests the delete POST path issues: the bare initial fetch,
the equally bare existence re-check when the initial fetch produced no
product, and — unless the re-check redirected first — the DELETE with
`timeout=10`. -/
def deletePostCalls (inp : DelInput) : List ApiCall :=
  ⟨"GET", productPath inp.pid, none⟩ ::
    match delProductData inp.initialGet with
    | none => []
    | some pd =>
      match pd with
      | some _ => [⟨"DELETE", productPath inp.pid, some 10⟩]
      | none =>
        ⟨"GET", productPath inp.pid, none⟩ ::
          match inp.recheckGet with
          | .conn => []
          | .http status _ =>
            if status = 404 then [] else [⟨"DELETE", productPath inp.pid, some 10⟩]

/-! ## Declarative per-field validity conditions

These state, independently of the cleaning pipeline, when each field of
`ProductForm` accepts its submitted value; the C1 theorems relate them to
`is_valid`. -/

/-- Title accepted: non-empty after stripping and at most 200 characters. -/
def titleOk (v : Option String) : Bool :=
  let t := pyStrip (v.getD "")
  t != "" && t.length ≤ 200

/-- Description accepted: non-empty after stripping. -/
def descriptionOk (v : Option String) : Bool :=
  pyStrip (v.getD "") != ""

/-- Price accepted: present, parses as a decimal literal with at most 10
digits, 2 decimal places and 8 whole digits, and at least 0.01. -/
def priceOk (v : Option String) : Bool :=
  match v with
  | none => false
  | some s =>
    if s = "" then false
    else
      match parseDec (pyStrip s) with
      | none => false
      | some d => decValidatorOk d && decide (minPrice ≤ decVal d)

/-- Category accepted: present, non-empty, equal to the string form of one
of the loaded choice keys, and parseable by `int(...)`. -/
def categoryOk (choices : Choices) (v : Option String) : Bool :=
  let s := v.getD ""
  s != "" &&
    (choices.any fun kv =>
      match kv.1 with
      | some k => s == toString k
      | none => s == "") &&
    (pyParseInt s).isSome

/-- Required URL field accepted: non-empty after stripping and
normalisation, and passing the URL validator. -/
def urlReqOk (urlNorm : String → String) (urlOk : String → Bool)
    (v : Option String) : Bool :=
  let s := pyStrip (v.getD "")
  let u := if s = "" then "" else urlNorm s
  u != "" && urlOk u

/-- Optional URL field accepted: empty, or passing the URL validator. -/
def urlOptOk (urlNorm : String → String) (urlOk : String → Bool)
    (v : Option String) : Bool :=
  let s := pyStrip (v.getD "")
  let u := if s = "" then "" else urlNorm s
  u == "" || urlOk u

/-- Whether a field clean succeeded. -/
def exOk {α : Type} (r : Except String α) : Bool :=
  match r with
  | .ok _ => true
  | .error _ => false

theorem errsOf_isEmpty {α : Type} (n : String) (r : Except String α) :
    (errsOf n r).isEmpty = exOk r := by
  cases r <;> rfl

theorem isEmpty_append {α : Type} (a b : List α) :
    (a ++ b).isEmpty = (a.isEmpty && b.isEmpty) := by
  cases a <;> simp

theorem cleanTitle_ok (v : Option String) : exOk (cleanTitle v) = titleOk v := by
  unfold cleanTitle titleOk
  by_cases h0 : pyStrip (v.getD "") = ""
  · simp [h0, exOk]
  · by_cases h1 : 200 < (pyStrip (v.getD "")).length
    · simp [h0, h1, exOk, not_le.mpr h1]
    · have h2 : pyStrip (pyStrip (v.getD "")) = pyStrip (v.getD "") := pyStrip_idem _
      simp [h0, h1, h2, exOk, not_lt.mp h1]

theorem cleanDescription_ok (v : Option String) :
    exOk (cleanDescription v) = descriptionOk v := by
  unfold cleanDescription descriptionOk
  by_cases h0 : pyStrip (v.getD "") = ""
  · simp [h0, exOk]
  · have h2 : pyStrip (pyStrip (v.getD "")) = pyStrip (v.getD "") := pyStrip_idem _
    simp [h0, h2, exOk]

theorem cleanPrice_ok (v : Option String) : exOk (cleanPrice v) = priceOk v := by
  cases v with
  | none => rfl
  | some s =>
    simp only [cleanPrice, priceOk]
    by_cases h0 : s = ""
    · simp [h0, exOk]
    · rw [if_neg h0, if_neg h0]
      match hp : parseDec (pyStrip s) with
      | none => rfl
      | some d =>
        cases hval : decValidatorOk d with
        | false => simp [exOk, hval]
        | true =>
          by_cases h2 : decVal d < minPrice
          · simp [exOk, hval, h2, not_le.mpr h2]
          · have hge : minPrice ≤ decVal d := not_lt.mp h2
            have hpos : ¬ decVal d ≤ 0 := by
              intro hle
              have h3 : minPrice ≤ 0 := le_trans hge hle
              norm_num [minPrice] at h3
            simp [exOk, hval, h2, hpos, hge]

theorem cleanCategoryId_ok (choices : Choices) (v : Option String) :
    exOk (cleanCategoryId choices v) = categoryOk choices v := by
  unfold cleanCategoryId categoryOk
  by_cases h0 : v.getD "" = ""
  · simp [h0, exOk]
  · by_cases h1 : (choices.any fun kv =>
        match kv.1 with
        | some k => v.getD "" == toString k
        | none => v.getD "" == "") = false
    · simp only [h0, if_false, h1, if_true]
      simp [exOk, h0, h1]
    · simp only [h0, if_false, h1, if_false]
      match hp : pyParseInt (v.getD "") with
      | some n =>
        simp [exOk, h0, hp, Bool.not_eq_false _ |>.mp h1]
      | none =>
        simp [exOk, h0, hp, Bool.not_eq_false _ |>.mp h1]

theorem cleanUrl_req_ok (urlNorm : String → String) (urlOk : String → Bool)
    (v : Option String) :
    exOk (cleanUrl urlNorm urlOk true v) = urlReqOk urlNorm urlOk v := by
  unfold cleanUrl urlReqOk
  by_cases h0 : (if pyStrip (v.getD "") = "" then ""
      else urlNorm (pyStrip (v.getD ""))) = ""
  · simp only [h0]
    simp [exOk]
  · simp only [h0]
    by_cases h1 : urlOk (if pyStrip (v.getD "") = "" then ""
        else urlNorm (pyStrip (v.getD ""))) = true
    · simp [h0, h1, exOk]
    · simp [h0, h1, exOk]

theorem cleanUrl_opt_ok (urlNorm : String → String) (urlOk : String → Bool)
    (v : Option String) :
    exOk (cleanUrl urlNorm urlOk false v) = urlOptOk urlNorm urlOk v := by
  unfold cleanUrl urlOptOk
  by_cases h0 : (if pyStrip (v.getD "") = "" then ""
      else urlNorm (pyStrip (v.getD ""))) = ""
  · simp only [h0]
    simp [exOk]
  · simp only [h0]
    by_cases h1 : urlOk (if pyStrip (v.getD "") = "" then ""
        else urlNorm (pyStrip (v.getD ""))) = true
    · simp [h0, h1, exOk]
    · simp [h0, h1, exOk]

theorem isValid_eq_fields (urlNorm : String → String) (urlOk : String → Bool)
    (choices : Choices) (data : FormData) :
    isValid urlNorm urlOk choices data =
      (titleOk data.title && priceOk data.price &&
        descriptionOk data.description && categoryOk choices data.categoryId &&
        urlReqOk urlNorm urlOk data.image_url_1 &&
        urlOptOk urlNorm urlOk data.image_url_2 &&
        urlOptOk urlNorm urlOk data.image_url_3) := by
  unfold isValid formErrors
  rw [isEmpty_append, isEmpty_append, isEmpty_append, isEmpty_append,
    isEmpty_append, isEmpty_append, errsOf_isEmpty, errsOf_isEmpty,
    errsOf_isEmpty, errsOf_isEmpty, errsOf_isEmpty, errsOf_isEmpty,
    errsOf_isEmpty, cleanTitle_ok, cleanPrice_ok, cleanDescription_ok,
    cleanCategoryId_ok, cleanUrl_req_ok, cleanUrl_opt_ok, cleanUrl_opt_ok,
    Bool.and_assoc]

theorem isValid_eq_exOk (urlNorm : String → String) (urlOk : String → Bool)
    (choices : Choices) (data : FormData) :
    isValid urlNorm urlOk choices data =
      (exOk (cleanTitle data.title) && exOk (cleanPrice data.price) &&
        exOk (cleanDescription data.description) &&
        exOk (cleanCategoryId choices data.categoryId) &&
        exOk (cleanUrl urlNorm urlOk true data.image_url_1) &&
        exOk (cleanUrl urlNorm urlOk false data.image_url_2) &&
        exOk (cleanUrl urlNorm urlOk false data.image_url_3)) := by
  unfold isValid formErrors
  rw [isEmpty_append, isEmpty_append, isEmpty_append, isEmpty_append,
    isEmpty_append, isEmpty_append, errsOf_isEmpty, errsOf_isEmpty,
    errsOf_isEmpty, errsOf_isEmpty, errsOf_isEmpty, errsOf_isEmpty,
    errsOf_isEmpty, Bool.and_assoc]

theorem cleanUrl_req_ne_empty (urlNorm : String → String) (urlOk : String → Bool)
    (v : Option String) (u : String)
    (h : cleanUrl urlNorm urlOk true v = .ok u) : u ≠ "" := by
  unfold cleanUrl at h
  by_cases h0 : (if pyStrip (v.getD "") = "" then ""
      else urlNorm (pyStrip (v.getD ""))) = ""
  · rw [if_pos h0] at h
    simp at h
  · rw [if_neg h0] at h
    by_cases h1 : urlOk (if pyStrip (v.getD "") = "" then ""
        else urlNorm (pyStrip (v.getD ""))) = true
    · rw [if_pos h1] at h
      cases h
      exact h0
    · rw [if_neg h1] at h
      simp at h

theorem getProductData_none_iff (urlNorm : String → String) (urlOk : String → Bool)
    (choices : Choices) (data : FormData) :
    (getProductData urlNorm urlOk choices data = none ↔
      isValid urlNorm urlOk choices data = false) := by
  rw [isValid_eq_exOk]
  cases hT : cleanTitle data.title with
  | error e => simp [getProductData, hT, exOk]
  | ok t =>
  cases hP : cleanPrice data.price with
  | error e => simp [getProductData, hT, hP, exOk]
  | ok pr =>
  cases hD : cleanDescription data.description with
  | error e => simp [getProductData, hT, hP, hD, exOk]
  | ok d =>
  cases hC : cleanCategoryId choices data.categoryId with
  | error e => simp [getProductData, hT, hP, hD, hC, exOk]
  | ok c =>
  cases hU1 : cleanUrl urlNorm urlOk true data.image_url_1 with
  | error e => simp [getProductData, hT, hP, hD, hC, hU1, exOk]
  | ok u1 =>
  cases hU2 : cleanUrl urlNorm urlOk false data.image_url_2 with
  | error e => simp [getProductData, hT, hP, hD, hC, hU1, hU2, exOk]
  | ok u2 =>
  cases hU3 : cleanUrl urlNorm urlOk false data.image_url_3 with
  | error e => simp [getProductData, hT, hP, hD, hC, hU1, hU2, hU3, exOk]
  | ok u3 => simp [getProductData, hT, hP, hD, hC, hU1, hU2, hU3, exOk]

theorem getProductData_some_shape (urlNorm : String → String) (urlOk : String → Bool)
    (choices : Choices) (data : FormData) (p : Payload)
    (h : getProductData urlNorm urlOk choices data = some p) :
    ∃ u1 u2 u3,
      cleanUrl urlNorm urlOk true data.image_url_1 = .ok u1 ∧
      cleanUrl urlNorm urlOk false data.image_url_2 = .ok u2 ∧
      cleanUrl urlNorm urlOk false data.image_url_3 = .ok u3 ∧
      u1 ≠ "" ∧
      p.images = u1 :: ((if u2 = "" then [] else [u2]) ++
        (if u3 = "" then [] else [u3])) := by
  cases hT : cleanTitle data.title with
  | error e => simp [getProductData, hT] at h
  | ok t =>
  cases hP : cleanPrice data.price with
  | error e => simp [getProductData, hT, hP] at h
  | ok pr =>
  cases hD : cleanDescription data.description with
  | error e => simp [getProductData, hT, hP, hD] at h
  | ok d =>
  cases hC : cleanCategoryId choices data.categoryId with
  | error e => simp [getProductData, hT, hP, hD, hC] at h
  | ok c =>
  cases hU1 : cleanUrl urlNorm urlOk true data.image_url_1 with
  | error e => simp [getProductData, hT, hP, hD, hC, hU1] at h
  | ok u1 =>
  cases hU2 : cleanUrl urlNorm urlOk false data.image_url_2 with
  | error e => simp [getProductData, hT, hP, hD, hC, hU1, hU2] at h
  | ok u2 =>
  cases hU3 : cleanUrl urlNorm urlOk false data.image_url_3 with
  | error e => simp [getProductData, hT, hP, hD, hC, hU1, hU2, hU3] at h
  | ok u3 =>
    have hu1 : u1 ≠ "" := cleanUrl_req_ne_empty urlNorm urlOk data.image_url_1 u1 hU1
    refine ⟨u1, u2, u3, rfl, rfl, rfl, hu1, ?_⟩
    simp only [getProductData, hT, hP, hD, hC, hU1, hU2, hU3] at h
    cases h
    simp [hu1]

/-! ## Claim C1 -/

/-- The validity condition exactly as claim C1 states it: title and
description non-empty after trimming, price > 0, categoryId resolves to an
integer, and image_url_1 is a well-formed URL — and nothing else. -/
def claimC1Valid (urlNorm : String → String) (urlOk : String → Bool)
    (data : FormData) : Bool :=
  (pyStrip (data.title.getD "") != "") &&
  (pyStrip (data.description.getD "") != "") &&
  (match parseDec (pyStrip (data.price.getD "")) with
    | some d => decide (0 < decVal d)
    | none => false) &&
  (pyParseInt (data.categoryId.getD "")).isSome &&
  (let s := pyStrip (data.image_url_1.getD "")
   s != "" && urlOk (urlNorm s))

/-- The category choice set used by the C1 counterexample: the sentinel and
one real category. -/
def cexChoices : Choices :=
  [(none, "Selecciona una categoría"), (some 1, "Ropa")]

/-- The submitted data of the C1 counterexample: every one of the claim's
five conditions holds, but `categoryId = "7"` is not among the loaded
choices, so `ChoiceField.validate` rejects the form. -/
def cexDataC1 : FormData :=
  { title := some "Mesa"
    price := some "20.00"
    description := some "Linda"
    categoryId := some "7"
    image_url_1 := some "https://a.co/i.jpg"
    image_url_2 := some ""
    image_url_3 := none }

theorem parseDec_2000 :
    parseDec (pyStrip "20.00") = some ⟨false, [2, 0, 0, 0], -2⟩ := by
  decide

theorem decVal_2000 : decVal ⟨false, [2, 0, 0, 0], -2⟩ = 20 := by
  norm_num [decVal, natOfDigits]

/-- Counterexample to claim C1 as stated: on `cexDataC1` all five of the
claim's conditions hold (the title and description are non-empty after
trimming, the price 20.00 is positive, `"7"` resolves to an integer, and
the first image URL passes the — here universally accepting — validator),
yet the form is invalid, because the submitted category is not one of the
loaded choices.  Hence validity is not equivalent to the claim's five
conditions. -/
theorem claim1_counterexample :
    claimC1Valid (fun s => s) (fun _ => true) cexDataC1 = true ∧
      isValid (fun s => s) (fun _ => true) cexChoices cexDataC1 = false := by
  constructor
  · have hpos : decide ((0 : ℚ) < decVal ⟨false, [2, 0, 0, 0], -2⟩) = true := by
      rw [decide_eq_true_eq, decVal_2000]
      norm_num
    simp only [claimC1Valid, cexDataC1, Option.getD_some, parseDec_2000, hpos]
    decide
  · rw [isValid_eq_exOk]
    have hcat : exOk (cleanCategoryId cexChoices cexDataC1.categoryId) = false := by
      decide
    simp [hcat]

/-- Claim C1, amended: a `ProductForm` is valid iff title and description
are non-empty after trimming with the title at most 200 characters, the
price parses as a decimal with at most 10 digits, 2 decimal places and 8
whole digits and is at least 0.01, the submitted category equals the
string form of one of the loaded choice keys (and so resolves to an
integer), image_url_1 is a non-empty well-formed URL, and image_url_2 and
image_url_3 are each empty or well-formed. -/
theorem claim1_amended (urlNorm : String → String) (urlOk : String → Bool)
    (choices : Choices) (data : FormData) :
    isValid urlNorm urlOk choices data =
      (titleOk data.title && priceOk data.price &&
        descriptionOk data.description && categoryOk choices data.categoryId &&
        urlReqOk urlNorm urlOk data.image_url_1 &&
        urlOptOk urlNorm urlOk data.image_url_2 &&
        urlOptOk urlNorm urlOk data.image_url_3) :=
  isValid_eq_fields urlNorm urlOk choices data

/-! ## Claim C2 -/

/-- The submitted data of the C2 counterexample: a fully valid form whose
`image_url_1` carries surrounding whitespace, which `CharField`'s
`strip=True` removes during cleaning. -/
def cexDataC2 : FormData :=
  { title := some "Zapato"
    price := some "10.00"
    description := some "Bueno"
    categoryId := some "1"
    image_url_1 := some " https://a.co/i.jpg "
    image_url_2 := some ""
    image_url_3 := none }

theorem parseDec_1000 :
    parseDec (pyStrip "10.00") = some ⟨false, [1, 0, 0, 0], -2⟩ := by
  decide

theorem decVal_1000 : decVal ⟨false, [1, 0, 0, 0], -2⟩ = 10 := by
  norm_num [decVal, natOfDigits]

instance {ε α : Type} [DecidableEq ε] [DecidableEq α] : DecidableEq (Except ε α) :=
  fun x y =>
    match x, y with
    | .ok a, .ok b => if h : a = b then .isTrue (h ▸ rfl) else .isFalse (by simp [h])
    | .error a, .error b =>
      if h : a = b then .isTrue (h ▸ rfl) else .isFalse (by simp [h])
    | .ok _, .error _ => .isFalse (by simp)
    | .error _, .ok _ => .isFalse (by simp)

theorem cleanPrice_cex2 :
    cleanPrice (some "10.00") = .ok ⟨false, [1, 0, 0, 0], -2⟩ := by
  have h1 : ¬ decVal ⟨false, [1, 0, 0, 0], -2⟩ < minPrice := by
    rw [decVal_1000]
    norm_num [minPrice]
  have h2 : ¬ decVal ⟨false, [1, 0, 0, 0], -2⟩ ≤ 0 := by
    rw [decVal_1000]
    norm_num
  have h3 : decValidatorOk ⟨false, [1, 0, 0, 0], -2⟩ = true := by decide
  have hs : ¬ ("10.00" : String) = "" := by decide
  simp [cleanPrice, parseDec_1000, h1, h2, h3, hs]

/-- The payload `get_product_data` produces on `cexDataC2`. -/
def payloadC2 : Payload :=
  { title := "Zapato"
    price := 10
    description := "Bueno"
    categoryId := 1
    images := ["https://a.co/i.jpg"] }

theorem getProductData_cex2 :
    getProductData (fun s => s) (fun _ => true) cexChoices cexDataC2 =
      some payloadC2 := by
  have hT : cleanTitle (some "Zapato") = .ok "Zapato" := by decide
  have hD : cleanDescription (some "Bueno") = .ok "Bueno" := by decide
  have hC : cleanCategoryId cexChoices (some "1") = .ok 1 := by decide
  have hU1 : cleanUrl (fun s => s) (fun _ => true) true (some " https://a.co/i.jpg ") =
      .ok "https://a.co/i.jpg" := by decide
  have hU2 : cleanUrl (fun s => s) (fun _ => true) false (some "") = .ok "" := by
    decide
  have hU3 : cleanUrl (fun s => s) (fun _ => true) false none = .ok "" := by
    decide
  simp only [getProductData, cexDataC2, hT, cleanPrice_cex2, hD, hC, hU1, hU2, hU3]
  simp [payloadC2, decVal_1000]

/-- Counterexample to claim C2 as stated: on the valid submission
`cexDataC2` the first element of `images` is the cleaned (stripped) URL,
which differs from the submitted `image_url_1` value
`" https://a.co/i.jpg "`. -/
theorem claim2_counterexample :
    (getProductData (fun s => s) (fun _ => true) cexChoices cexDataC2).map
        (fun p => p.images.head?) = some (some "https://a.co/i.jpg") ∧
      cexDataC2.image_url_1 = some " https://a.co/i.jpg " ∧
      ("https://a.co/i.jpg" : String) ≠ " https://a.co/i.jpg " := by
  refine ⟨?_, rfl, by decide⟩
  rw [getProductData_cex2]
  rfl

/-- Claim C2, amended: `get_product_data` yields a result exactly when the
form is valid, and on a valid form the `images` list is non-empty, starts
with the cleaned (stripped and normalised) `image_url_1`, and continues
with the cleaned `image_url_2` and `image_url_3` in that order, each
included only when non-empty after cleaning. -/
theorem claim2_amended (urlNorm : String → String) (urlOk : String → Bool)
    (choices : Choices) (data : FormData) :
    (getProductData urlNorm urlOk choices data = none ↔
      isValid urlNorm urlOk choices data = false) ∧
    ∀ p, getProductData urlNorm urlOk choices data = some p →
      p.images ≠ [] ∧
      ∃ u1 u2 u3,
        cleanUrl urlNorm urlOk true data.image_url_1 = .ok u1 ∧
        cleanUrl urlNorm urlOk false data.image_url_2 = .ok u2 ∧
        cleanUrl urlNorm urlOk false data.image_url_3 = .ok u3 ∧
        u1 ≠ "" ∧
        p.images.head? = some u1 ∧
        p.images = u1 :: ((if u2 = "" then [] else [u2]) ++
          (if u3 = "" then [] else [u3])) := by
  refine ⟨getProductData_none_iff urlNorm urlOk choices data, ?_⟩
  intro p h
  obtain ⟨u1, u2, u3, h1, h2, h3, hne, him⟩ :=
    getProductData_some_shape urlNorm urlOk choices data p h
  exact ⟨by simp [him], u1, u2, u3, h1, h2, h3, hne, by simp [him], him⟩

/-- Witness for `claim2_amended`: its second part applied to the concrete
valid submission `cexDataC2`, whose `get_product_data` result is
`payloadC2`. -/
theorem claim2_witness :
    payloadC2.images ≠ [] ∧
    ∃ u1 u2 u3,
      cleanUrl (fun s => s) (fun _ => true) true cexDataC2.image_url_1 = .ok u1 ∧
      cleanUrl (fun s => s) (fun _ => true) false cexDataC2.image_url_2 = .ok u2 ∧
      cleanUrl (fun s => s) (fun _ => true) false cexDataC2.image_url_3 = .ok u3 ∧
      u1 ≠ "" ∧
      payloadC2.images.head? = some u1 ∧
      payloadC2.images = u1 :: ((if u2 = "" then [] else [u2]) ++
        (if u3 = "" then [] else [u3])) :=
  (claim2_amended (fun s => s) (fun _ => true) cexChoices cexDataC2).2
    payloadC2 getProductData_cex2

/-! ## Claim C3 -/

/-- An upstream result of 25 products, as in the claim's example. -/
def sampleProducts : List Product :=
  (List.range 25).map fun i => ⟨i⟩

/-- Counterexample to claim C3 as stated: for the requested page `"0"`
(below the valid range, whose nearest valid page is 1) the view renders the
LAST page — `Paginator.get_page` maps an `EmptyPage` error to `num_pages`
— so the rendered slice is the 25th product, not the first twelve. -/
theorem claim3_counterexample :
    listView ⟨some "0", "", ""⟩ (.http 200 (.ok sampleProducts))
        (.http 200 (.ok [])) =
      .success
        { pageNumber := 3
          pageProducts := [⟨24⟩]
          categories := []
          totalProducts := 25
          totalCategories := 0
          totalPages := 3 } ∧
      ([(⟨24⟩ : Product)] : List Product) ≠ sampleProducts.take 12 := by
  constructor
  · decide
  · decide

/-- Claim C3, amended: the list action paginates client-side with page size
12 and never raises for any requested page value; a non-integer page value
clamps to page 1, while an integer page below 1 or above `total_pages`
clamps to the LAST page (not the nearest valid page); in the example of 25
upstream products and requested page 2, the rendered page holds products
13–24 and `total_pages` is 3. -/
theorem claim3_amended :
    (∀ (products : List Product) (cats : List Category) (page : Option String),
      listView ⟨page, "", ""⟩ (.http 200 (.ok products)) (.http 200 (.ok cats)) =
        .success
          { pageNumber := clampedPage page (numPages products.length)
            pageProducts :=
              (products.drop ((clampedPage page (numPages products.length) - 1) * 12)).take 12
            categories := cats
            totalProducts := products.length
            totalCategories := cats.length
            totalPages := numPages products.length }) ∧
    (∀ (s : String) (n : Int) (np : Nat), pyParseInt s = some n → n < 1 →
      clampedPage (some s) np = np) ∧
    (∀ (s : String) (n : Int) (np : Nat), pyParseInt s = some n → (np : Int) < n →
      clampedPage (some s) np = np) ∧
    (∀ (s : String) (n : Int) (np : Nat), pyParseInt s = some n → 1 ≤ n →
      n ≤ (np : Int) → clampedPage (some s) np = n.toNat) ∧
    (∀ (s : String) (np : Nat), pyParseInt s = none → clampedPage (some s) np = 1) ∧
    (listView ⟨some "2", "phone", "1"⟩ (.http 200 (.ok sampleProducts))
        (.http 200 (.ok [⟨1, "Ropa"⟩])) =
      .success
        { pageNumber := 2
          pageProducts := (sampleProducts.drop 12).take 12
          categories := [⟨1, "Ropa"⟩]
          totalProducts := 25
          totalCategories := 1
          totalPages := 3 }) := by
  refine ⟨?_, ?_, ?_, ?_, ?_, ?_⟩
  · intro products cats page
    simp [listView]
  · intro s n np hp hlt
    simp [clampedPage, hp, hlt]
  · intro s n np hp hgt
    by_cases h1 : n < 1
    · simp [clampedPage, hp, h1]
    · simp [clampedPage, hp, h1, hgt]
  · intro s n np hp h1 h2
    simp [clampedPage, hp, not_lt.mpr h1, not_lt.mpr h2]
  · intro s np hp
    simp [clampedPage, hp]
  · decide

/-- Witness for `claim3_amended`: the clamping clauses applied at concrete
page strings with three total pages. -/
theorem claim3_witness :
    clampedPage (some "0") 3 = 3 ∧ clampedPage (some "9") 3 = 3 ∧
      clampedPage (some "2") 3 = 2 ∧ clampedPage (some "x") 3 = 1 :=
  ⟨claim3_amended.2.1 "0" 0 3 (by decide) (by decide),
    claim3_amended.2.2.1 "9" 9 3 (by decide) (by decide),
    claim3_amended.2.2.2.1 "2" 2 3 (by decide) (by decide) (by decide),
    claim3_amended.2.2.2.2.1 "x" 3 (by decide)⟩

/-! ## Claim C4 -/

/-- Counterexample to claim C4 as stated: when the categories request
answers with a non-success status (here 500), `ProductSearchForm`'s
`load_categories` takes no `else` branch, so the field keeps its declared
`choices=[]` — the choice set is empty, not a single sentinel entry. -/
theorem claim4_counterexample :
    searchFormLoadCategories (.http 500 (.ok [])) = .ok [] ∧
      ([] : Choices).length ≠ 1 := by
  constructor
  · rfl
  · decide

/-- Claim C4, amended: on a non-success status or a connection failure both
forms still finish constructing; `ProductForm` ends with exactly one
sentinel whose label distinguishes the load error from the connectivity
error, while `ProductSearchForm` ends with an empty choice set on a
non-success status and with a single sentinel — labelled like
`ProductForm`'s load error — on a connection failure. -/
theorem claim4_amended :
    (∀ (st : Nat) (body : UpBody (List Category)), st ≠ 200 →
      productFormLoadCategories (.http st body) =
          .ok [(none, "Error al cargar categorías")] ∧
        searchFormLoadCategories (.http st body) = .ok []) ∧
      productFormLoadCategories .conn =
        .ok [(none, "Error de conexión - Recarga la página")] ∧
      searchFormLoadCategories .conn = .ok [(none, "Error al cargar categorías")] ∧
      ("Error al cargar categorías" : String) ≠ "Error de conexión - Recarga la página" := by
  refine ⟨?_, rfl, rfl, by decide⟩
  intro st body hst
  constructor
  · simp [productFormLoadCategories, hst]
  · simp [searchFormLoadCategories, hst]

/-- Witness for `claim4_amended`: its status clause applied at status 500. -/
theorem claim4_witness :
    productFormLoadCategories (.http 500 (.ok [])) =
        .ok [(none, "Error al cargar categorías")] ∧
      searchFormLoadCategories (.http 500 (.ok [])) = .ok [] :=
  claim4_amended.1 500 (.ok []) (by decide)

/-! ## Claim C5 -/

/-- Counterexample to claim C5 as stated: when the products request
succeeds but the categories request fails at the connection level, the
`RequestException` handler renders the connection-error view with zero
products — the action does not degrade categories to `[]` and render the
success view. -/
theorem claim5_counterexample :
    listView ⟨none, "", ""⟩ (.http 200 (.ok sampleProducts)) .conn =
        .connErrorView ⟨[], [], 0, 0, true⟩ ∧
      ListOutcome.connErrorView ⟨[], [], 0, 0, true⟩ ≠
        .success ⟨1, sampleProducts.take 12, [], 25, 0, 3⟩ := by
  constructor
  · rfl
  · decide

/-- Claim C5, amended: after a successful products fetch, only a NON-SUCCESS
STATUS of the categories request degrades categories to an empty list
inside the success view; a connection failure of the categories request
renders the connection-error view, and a malformed categories body renders
the decode-error view, both with zero products and categories and a
surfaced message.  A connection failure, an error status (≥ 400), or a
malformed body of the products request itself also renders the
corresponding error view with zero products and categories and a surfaced
message. -/
theorem claim5_amended :
    (∀ (req : ListRequest) (products : List Product) (cst : Nat)
        (cbody : UpBody (List Category)), cst ≠ 200 →
      listView req (.http 200 (.ok products)) (.http cst cbody) =
        .success
          { pageNumber := clampedPage req.page (numPages products.length)
            pageProducts :=
              (products.drop ((clampedPage req.page (numPages products.length) - 1) * 12)).take 12
            categories := []
            totalProducts := products.length
            totalCategories := 0
            totalPages := numPages products.length }) ∧
    (∀ (req : ListRequest) (products : List Product),
      listView req (.http 200 (.ok products)) .conn =
        .connErrorView ⟨[], [], 0, 0, true⟩) ∧
    (∀ (req : ListRequest) (products : List Product),
      listView req (.http 200 (.ok products)) (.http 200 .bad) =
        .dataErrorView ⟨[], [], 0, 0, true⟩) ∧
    (∀ (req : ListRequest) (catResp : UpResp (List Category)),
      listView req .conn catResp = .connErrorView ⟨[], [], 0, 0, true⟩) ∧
    (∀ (req : ListRequest) (st : Nat) (body : UpBody (List Product))
        (catResp : UpResp (List Category)), 400 ≤ st →
      listView req (.http st body) catResp = .connErrorView ⟨[], [], 0, 0, true⟩) ∧
    (∀ (req : ListRequest) (st : Nat) (catResp : UpResp (List Category)), st < 400 →
      listView req (.http st .bad) catResp = .dataErrorView ⟨[], [], 0, 0, true⟩) := by
  refine ⟨?_, ?_, ?_, ?_, ?_, ?_⟩
  · intro req products cst cbody hcst
    simp [listView, hcst]
  · intro req products
    simp [listView]
  · intro req products
    simp [listView]
  · intro req catResp
    simp [listView]
  · intro req st body catResp hst
    simp [listView, hst]
  · intro req st catResp hst
    simp [listView, not_le.mpr hst]

/-- Witness for `claim5_amended`: the degrade clause at a concrete 500
categories response, and the products-error clause at status 404. -/
theorem claim5_witness :
    listView ⟨none, "", ""⟩ (.http 200 (.ok sampleProducts)) (.http 500 (.ok [])) =
        .success ⟨1, sampleProducts.take 12, [], 25, 0, 3⟩ ∧
      listView ⟨none, "", ""⟩ (.http 404 .bad) .conn =
        .connErrorView ⟨[], [], 0, 0, true⟩ := by
  constructor
  · have h := claim5_amended.1 ⟨none, "", ""⟩ sampleProducts 500 (.ok []) (by decide)
    rw [h]
    decide
  · exact claim5_amended.2.2.2.2.1 ⟨none, "", ""⟩ 404 .bad .conn (by decide)

/-! ## Claim C6 -/

theorem parseDec_zero : parseDec (pyStrip "0") = some ⟨false, [0], 0⟩ := by
  decide

theorem cleanPrice_zero :
    cleanPrice (some "0") =
      .error "Ensure this value is greater than or equal to 0.01." := by
  have hlt : decVal ⟨false, [0], 0⟩ < minPrice := by
    norm_num [decVal, natOfDigits, minPrice]
  have h3 : decValidatorOk ⟨false, [0], 0⟩ = true := by decide
  have hs : ¬ ("0" : String) = "" := by decide
  simp [cleanPrice, parseDec_zero, hlt, h3, hs]

/-- The submitted data of the C6 counterexample: the claim's example
`price="0"`, every other field acceptable. -/
def cexDataC6 : FormData :=
  { title := some "Silla"
    price := some "0"
    description := some "Comoda"
    categoryId := some "1"
    image_url_1 := some "https://a.co/i.jpg"
    image_url_2 := none
    image_url_3 := none }

theorem isValid_cex6 :
    isValid (fun s => s) (fun _ => true) cexChoices cexDataC6 = false := by
  rw [isValid_eq_exOk]
  have hp : exOk (cleanPrice cexDataC6.price) = false := by
    simp [cexDataC6, cleanPrice_zero, exOk]
  simp [hp]

/-- The C6 counterexample input to the add POST path: the invalid
`price="0"` submission, with a healthy upstream. -/
def addInputC6 : AddInput :=
  { urlNorm := fun s => s
    urlOk := fun _ => true
    choices := cexChoices
    data := cexDataC6
    viewCats := .http 200 (.ok [])
    postResp := .http 201 (.ok ⟨some "Silla", none⟩) }

/-- Counterexample to claim C6 as stated: on the invalid `price="0"`
submission the view still issues two upstream requests (the view's
categories fetch and the bound form's `load_categories` fetch), so "no API
call is issued to the upstream / upstream is never called" is false — only
the product POST is skipped. -/
theorem claim6_counterexample :
    isValid (fun s => s) (fun _ => true) cexChoices cexDataC6 = false ∧
      (addPost addInputC6).calls = [categoriesCall, categoriesCall] ∧
      [categoriesCall, categoriesCall] ≠ ([] : List ApiCall) := by
  refine ⟨isValid_cex6, ?_, by decide⟩
  simp [addPost, addPostForm, addInputC6, isValid_cex6]

/-- Claim C6, amended: when the view's own categories fetch answers 200
with a malformed body, `add_product` raises an uncaught decode error after
that single request; otherwise, when validation fails the POST path issues
no `POST /products/` request (its only upstream traffic is the two
category GETs), and when validation succeeds and the upstream answers the
product POST with status 201 and a decodable JSON body, a success message
containing the response's title is emitted and the form is reset to a
fresh empty one. -/
theorem claim6_amended (inp : AddInput) :
    (inp.viewCats = .http 200 .bad →
      (addPost inp).raised = true ∧ (addPost inp).calls = [categoriesCall]) ∧
    (inp.viewCats ≠ .http 200 .bad →
      isValid inp.urlNorm inp.urlOk inp.choices inp.data = false →
      (addPost inp).calls = [categoriesCall, categoriesCall] ∧
        ∀ c ∈ (addPost inp).calls, c.method ≠ "POST") ∧
    (∀ o : RespObj, inp.viewCats ≠ .http 200 .bad →
      isValid inp.urlNorm inp.urlOk inp.choices inp.data = true →
      inp.postResp = .http 201 (.ok o) →
      addSuccessMsg (o.titleField.getD "") ∈ (addPost inp).msgs ∧
        (addPost inp).formReset = true) := by
  refine ⟨?_, ?_, ?_⟩
  · intro hb
    constructor
    · simp [addPost, hb]
    · simp [addPost, hb]
  · intro hnb hv
    obtain ⟨warn, heq⟩ := addPost_eq_form inp hnb
    rw [heq]
    constructor
    · simp [addPostForm, hv]
    · intro c hc
      simp [addPostForm, hv] at hc
      rcases hc with rfl | rfl
      all_goals decide
  · intro o hnb hv hpost
    obtain ⟨warn, heq⟩ := addPost_eq_form inp hnb
    rw [heq]
    constructor
    · simp [addPostForm, hv, hpost]
    · simp [addPostForm, hv, hpost]

/-- A valid submission for the C6 witness: `cexDataC2` with a 201 upstream
answer. -/
def addInputC6v : AddInput :=
  { urlNorm := fun s => s
    urlOk := fun _ => true
    choices := cexChoices
    data := cexDataC2
    viewCats := .http 200 (.ok [])
    postResp := .http 201 (.ok ⟨some "Zapato", none⟩) }

theorem isValid_cex2 :
    isValid (fun s => s) (fun _ => true) cexChoices cexDataC2 = true := by
  rw [isValid_eq_exOk]
  have hp : exOk (cleanPrice cexDataC2.price) = true := by
    simp [cexDataC2, cleanPrice_cex2, exOk]
  simp only [hp]
  decide

/-- The C6 witness input for the crash clause: the view-level categories
fetch answers 200 with a malformed body. -/
def addInputC6crash : AddInput :=
  { urlNorm := fun s => s
    urlOk := fun _ => true
    choices := cexChoices
    data := cexDataC2
    viewCats := .http 200 .bad
    postResp := .http 201 (.ok ⟨some "Zapato", none⟩) }

/-- Witness for `claim6_amended`: the crash clause at a malformed 200
categories body, the invalid clause at the `price="0"` submission, and the
201 clause at a valid submission. -/
theorem claim6_witness :
    ((addPost addInputC6crash).raised = true ∧
      (addPost addInputC6crash).calls = [categoriesCall]) ∧
    ((addPost addInputC6).calls = [categoriesCall, categoriesCall] ∧
      ∀ c ∈ (addPost addInputC6).calls, c.method ≠ "POST") ∧
    (addSuccessMsg "Zapato" ∈ (addPost addInputC6v).msgs ∧
      (addPost addInputC6v).formReset = true) :=
  ⟨(claim6_amended addInputC6crash).1 rfl,
    (claim6_amended addInputC6).2.1 (by decide) isValid_cex6,
    (claim6_amended addInputC6v).2.2 ⟨some "Zapato", none⟩ (by decide)
      isValid_cex2 rfl⟩

/-! ## Claim C7 -/

/-- A concrete product body used by the update/delete scenarios. -/
def sampleProductJson : ProductJson :=
  { title := "Silla"
    price := 49
    description := "Comoda"
    categoryId := some 3
    images := ["https://img.a/1.jpg"] }

/-- The delete POST input on which the view crashes: the initial product
fetch answers 500 (so `product_data` stays `None`), the existence re-check
answers 200 (its body is dropped and does not repopulate `product_data`),
and the DELETE succeeds with 200 — whereupon
`product_data.get("title", "")` raises `AttributeError`, which no `except`
clause catches. -/
def delCrashInput : DelInput :=
  { pid := 5
    initialGet := .http 500 (.ok sampleProductJson)
    recheckGet := .http 200 (.ok sampleProductJson)
    delResp := .http 200 (.ok ⟨none, none⟩) }

/-- Claim C7: the update POST path does redirect to the list view for every
upstream outcome, but the delete POST path does not — on `delCrashInput`
(initial fetch 500, re-check 200, DELETE 200) the view raises an uncaught
`AttributeError` instead of redirecting, so the claim fails on the code;
the crash contradicts both the success-message intent of the code and the
spec's rule that no upstream outcome may produce an unhandled failure. -/
theorem claim7_theorem :
    (∀ (pid : Nat) (f : UpdPostData) (putResp : UpResp Unit),
      (updatePost pid f putResp).redirected = true) ∧
    deletePost delCrashInput = .crashed := by
  constructor
  · intro pid f putResp
    cases putResp with
    | conn => rfl
    | http status body =>
      by_cases h : status = 200
      · simp [updatePost, h]
      · simp [updatePost, h]
  · rfl

/-! ## Claim C8 -/

/-- Counterexample to claim C8 as stated: on a successful GET the rendered
form's `initial` dictionary carries the category id and first image under
the keys "category" and "image_url", which name no `ProductForm` field,
so only title, price and description are actually prefilled. -/
theorem claim8_counterexample :
    updateGet (.http 200 (.ok sampleProductJson)) (.http 200 (.ok [])) =
        .renderForm (updateInitial sampleProductJson) [] ∧
      (effectiveInitial (updateInitial sampleProductJson)).map Prod.fst =
        ["title", "price", "description"] ∧
      "categoryId" ∉ (effectiveInitial (updateInitial sampleProductJson)).map Prod.fst ∧
      "image_url_1" ∉ (effectiveInitial (updateInitial sampleProductJson)).map Prod.fst := by
  refine ⟨rfl, rfl, ?_, ?_⟩
  · decide
  · decide

/-- Claim C8, amended: on a 200 GET the view renders a form whose `initial`
data holds the product's title, price, description, category id and first
image, but only the title, price and description entries match a declared
field and prefill the form (a non-200 categories response degrades the
category list to empty, and a connection failure during either fetch, or a
non-200 product status, emits an error message and redirects to the
list). -/
theorem claim8_amended :
    (∀ (p : ProductJson) (cats : List Category),
      updateGet (.http 200 (.ok p)) (.http 200 (.ok cats)) =
        .renderForm (updateInitial p) cats) ∧
    (∀ (p : ProductJson) (cst : Nat) (cbody : UpBody (List Category)), cst ≠ 200 →
      updateGet (.http 200 (.ok p)) (.http cst cbody) =
        .renderForm (updateInitial p) []) ∧
    (∀ p : ProductJson,
      (effectiveInitial (updateInitial p)).map Prod.fst =
        ["title", "price", "description"]) ∧
    (∀ (st : Nat) (body : UpBody ProductJson) (catsResp : UpResp (List Category)),
      st ≠ 200 → updateGet (.http st body) catsResp = .redirectList) ∧
    (∀ catsResp : UpResp (List Category), updateGet .conn catsResp = .redirectList) ∧
    (∀ p : ProductJson, updateGet (.http 200 (.ok p)) .conn = .redirectList) := by
  refine ⟨?_, ?_, ?_, ?_, ?_, ?_⟩
  · intro p cats
    rfl
  · intro p cst cbody hcst
    simp [updateGet, hcst]
  · intro p
    rfl
  · intro st body catsResp hst
    simp [updateGet, hst]
  · intro catsResp
    rfl
  · intro p
    rfl

/-- Witness for `claim8_amended`: its degraded-categories and non-200
clauses at concrete statuses. -/
theorem claim8_witness :
    updateGet (.http 200 (.ok sampleProductJson)) (.http 500 .bad) =
        .renderForm (updateInitial sampleProductJson) [] ∧
      updateGet (.http 404 (.ok sampleProductJson)) (.http 200 (.ok [])) =
        .redirectList :=
  ⟨claim8_amended.2.1 sampleProductJson 500 .bad (by decide),
    claim8_amended.2.2.2.1 404 (.ok sampleProductJson) (.http 200 (.ok []))
      (by decide)⟩

/-! ## Claim C9 -/

/-- Counterexample to claim C9 as stated: the delete action's confirmation
GET fetches the product with a bare `requests.get(...)` carrying no
`timeout=` argument. -/
theorem claim9_counterexample :
    (⟨"GET", productPath 5, none⟩ : ApiCall) ∈ deleteGetCalls 5 ∧
      (⟨"GET", productPath 5, none⟩ : ApiCall).timeout ≠ some 10 := by
  constructor
  · decide
  · decide

/-- Claim C9, amended: every upstream request of the form category loaders,
the list, detail and add actions, and both update paths carries
`timeout=10`, and so does the delete action's DELETE request — but the
delete action's two product-fetch GETs (initial fetch and existence
re-check) carry no timeout at all. -/
theorem claim9_amended :
    (∀ prodResp : UpResp (List Product),
      ∀ c ∈ listViewCalls prodResp, c.timeout = some 10) ∧
    (∀ pid : Nat, ∀ c ∈ detailCalls pid, c.timeout = some 10) ∧
    (∀ inp : AddInput, ∀ c ∈ (addPost inp).calls, c.timeout = some 10) ∧
    (∀ (pid : Nat) (prodResp : UpResp ProductJson),
      ∀ c ∈ updateGetCalls pid prodResp, c.timeout = some 10) ∧
    (∀ (pid : Nat) (f : UpdPostData) (putResp : UpResp Unit),
      ∀ c ∈ (updatePost pid f putResp).calls, c.timeout = some 10) ∧
    categoriesCall.timeout = some 10 ∧
    (∀ pid : Nat, deleteGetCalls pid = [⟨"GET", productPath pid, none⟩]) ∧
    (∀ inp : DelInput, (⟨"GET", productPath inp.pid, none⟩ : ApiCall) ∈
      deletePostCalls inp) ∧
    (∀ inp : DelInput,
      ((deletePostCalls inp).all fun c =>
        c.timeout == some 10 || c.method == "GET") = true) := by
  refine ⟨?_, ?_, ?_, ?_, ?_, rfl, fun _ => rfl, ?_, ?_⟩
  · intro prodResp c hc
    cases prodResp with
    | conn =>
      simp [listViewCalls] at hc
      subst hc
      rfl
    | http st body =>
      by_cases h4 : 400 ≤ st
      · simp [listViewCalls, h4] at hc
        subst hc
        rfl
      · cases body with
        | bad =>
          simp [listViewCalls, h4] at hc
          subst hc
          rfl
        | ok ps =>
          simp [listViewCalls, h4] at hc
          rcases hc with rfl | rfl
          · rfl
          · rfl
  · intro pid c hc
    simp [detailCalls] at hc
    subst hc
    rfl
  · intro inp c hc
    by_cases hcrash : inp.viewCats = .http 200 .bad
    · simp [addPost, hcrash] at hc
      subst hc
      rfl
    · obtain ⟨warn, heq⟩ := addPost_eq_form inp hcrash
      rw [heq] at hc
      by_cases hv : isValid inp.urlNorm inp.urlOk inp.choices inp.data
      · cases hpost : inp.postResp with
        | conn =>
          simp [addPostForm, hv, hpost] at hc
          rcases hc with rfl | rfl | rfl
          all_goals rfl
        | http st body =>
          by_cases h201 : st = 201
          · cases body with
            | ok o =>
              simp [addPostForm, hv, hpost, h201] at hc
              rcases hc with rfl | rfl | rfl | rfl
              all_goals rfl
            | bad =>
              simp [addPostForm, hv, hpost, h201] at hc
              rcases hc with rfl | rfl | rfl
              all_goals rfl
          · simp [addPostForm, hv, hpost, h201] at hc
            rcases hc with rfl | rfl | rfl
            all_goals rfl
      · simp [addPostForm, hv] at hc
        rcases hc with rfl | rfl
        all_goals rfl
  · intro pid prodResp c hc
    cases prodResp with
    | conn =>
      simp [updateGetCalls] at hc
      subst hc
      rfl
    | http st body =>
      by_cases h200 : st = 200
      · cases body with
        | ok p =>
          simp [updateGetCalls, h200] at hc
          rcases hc with rfl | rfl
          · rfl
          · rfl
        | bad =>
          simp [updateGetCalls, h200] at hc
          subst hc
          rfl
      · simp [updateGetCalls, h200] at hc
        subst hc
        rfl
  · intro pid f putResp c hc
    cases putResp with
    | conn =>
      simp [updatePost] at hc
      subst hc
      rfl
    | http st body =>
      by_cases h200 : st = 200
      · simp [updatePost, h200] at hc
        subst hc
        rfl
      · simp [updatePost, h200] at hc
        subst hc
        rfl
  · intro inp
    cases h : delProductData inp.initialGet with
    | none => simp [deletePostCalls, h]
    | some pd => simp [deletePostCalls, h]
  · intro inp
    cases h : delProductData inp.initialGet with
    | none => simp [deletePostCalls, h]
    | some pd =>
      cases pd with
      | some p => simp [deletePostCalls, h]
      | none =>
        cases hre : inp.recheckGet with
        | conn => simp [deletePostCalls, h, hre]
        | http st body =>
          by_cases h404 : st = 404
          · simp [deletePostCalls, h, hre, h404]
          · simp [deletePostCalls, h, hre, h404]

/-- Witness for `claim9_amended`: its membership clauses at concrete
inputs. -/
theorem claim9_witness :
    (⟨"GET", productsPath, some 10⟩ : ApiCall).timeout = some 10 ∧
      (⟨"GET", productPath 5, none⟩ : ApiCall) ∈ deletePostCalls delCrashInput ∧
      ((deletePostCalls delCrashInput).all fun c =>
        c.timeout == some 10 || c.method == "GET") = true :=
  ⟨claim9_amended.1 .conn ⟨"GET", productsPath, some 10⟩ (by decide),
    claim9_amended.2.2.2.2.2.2.2.1 delCrashInput,
    claim9_amended.2.2.2.2.2.2.2.2 delCrashInput⟩

/-! ## Claim C10 -/

/-- Claim C10: when the update POST's `image_url` field is absent or empty,
the PUT payload has an empty `images` list, and its title, price and
categoryId are the raw submitted strings (or absent) — so the
at-least-one-image invariant of valid-form submissions does not hold on
the update path. -/
theorem claim10_theorem (pid : Nat) (f : UpdPostData) (putResp : UpResp Unit)
    (h : f.image_url = none ∨ f.image_url = some "") :
    (updatePost pid f putResp).payload.images = [] ∧
      (updatePost pid f putResp).payload.price = f.price ∧
      (updatePost pid f putResp).payload.categoryId = f.category ∧
      (updatePost pid f putResp).payload.title = f.title := by
  have hpl : (updatePost pid f putResp).payload = updatePayload f := by
    cases putResp with
    | conn => rfl
    | http st body =>
      by_cases h200 : st = 200
      · simp [updatePost, h200]
      · simp [updatePost, h200]
  rw [hpl]
  rcases h with h | h
  · simp [updatePayload, h]
  · simp [updatePayload, h]

/-- Witness for `claim10_theorem`: a concrete update POST with no
`image_url` value. -/
theorem claim10_witness :
    (updatePost 5 ⟨some "Silla", some "49", some "Comoda", some "3", none⟩
          (.http 200 (.ok ()))).payload.images = [] ∧
      (updatePost 5 ⟨some "Silla", some "49", some "Comoda", some "3", none⟩
          (.http 200 (.ok ()))).payload.price = some "49" ∧
      (updatePost 5 ⟨some "Silla", some "49", some "Comoda", some "3", none⟩
          (.http 200 (.ok ()))).payload.categoryId = some "3" ∧
      (updatePost 5 ⟨some "Silla", some "49", some "Comoda", some "3", none⟩
          (.http 200 (.ok ()))).payload.title = some "Silla" :=
  claim10_theorem 5 ⟨some "Silla", some "49", some "Comoda", some "3", none⟩
    (.http 200 (.ok ())) (Or.inl rfl)

end PlatziStore
